import Mathlib

set_option linter.unusedVariables false

/-!
Verification of the job-orchestration and parameter-resolution layer of the
`leonardo_ai` client (`src/leonardo_ai/leonardo_ai.py`).

The embedding is shallow: JSON values are an inductive type, Python dict /
list / string subscripting and truthiness are modelled explicitly, and every
fallible Python operation returns `Except PyErr`.  Network traffic is made
explicit: each operation receives the `HttpResponse` (status code, text,
parsed JSON body) that the remote service would have produced, and the
polling loops receive a stream `Nat → HttpResponse` of per-tick responses.
Wall-clock time is discrete: each request is instantaneous and
`time.sleep(poll_interval)` advances the clock by `poll_interval`, so the
elapsed time after `n` loop iterations is `n * poll_interval`.
-/

/-- A parsed JSON value, as produced by `response.json()`. Object fields keep
insertion order, like a Python dict. -/
inductive Json where
  | null : Json
  | bool : Bool → Json
  | num : Int → Json
  | str : String → Json
  | arr : List Json → Json
  | obj : List (String × Json) → Json


/-- The exceptions the embedded code can raise.  `leonardoAIError` is the
library's own `LeonardoAIError`; the others are the built-in Python
exceptions the modelled operations can raise.  `nonTermination` marks fuel
exhaustion of a loop model; it corresponds to the source looping forever
(possible only when `poll_interval = 0`). -/
inductive PyErr where
  | leonardoAIError : String → PyErr
  | typeError : PyErr
  | attributeError : PyErr
  | keyError : PyErr
  | indexError : PyErr
  | nonTermination : PyErr
deriving DecidableEq

/-- An HTTP response as seen by `requests`: status code, raw text and parsed
JSON body. -/
structure HttpResponse where
  status_code : Nat
  text : String
  body : Json

/-- First binding of a key in an association list; Python dicts have unique
keys, so this is dict lookup. -/
def dictGet (d : List (String × Json)) (k : String) : Option Json :=
  (d.find? (fun p => p.1 == k)).map (fun p => p.2)

/-- Python `d[k] = v`: overwrite the binding of `k` if present, else append. -/
def dictSet (d : List (String × Json)) (k : String) (v : Json) : List (String × Json) :=
  match d with
  | [] => [(k, v)]
  | (k', v') :: rest => if k' == k then (k, v) :: rest else (k', v') :: dictSet rest k v

/-- Python truthiness of a JSON value (`bool(v)`). -/
def truthy : Json → Bool
  | Json.null => false
  | Json.bool b => b
  | Json.num n => n != 0
  | Json.str s => s != ""
  | Json.arr l => !l.isEmpty
  | Json.obj l => !l.isEmpty

/-- Python `v.get(k, default)`: defined only on dicts, `AttributeError`
otherwise. -/
def pyDictGetD (v : Json) (k : String) (default : Json) : Except PyErr Json :=
  match v with
  | Json.obj fields => Except.ok ((dictGet fields k).getD default)
  | _ => Except.error PyErr.attributeError

/-- Python `v[k]` for a string key: dict lookup (`KeyError` when absent);
subscripting a string or list with a string key is a `TypeError`. -/
def pySubscript (v : Json) (k : String) : Except PyErr Json :=
  match v with
  | Json.obj fields =>
    match dictGet fields k with
    | some x => Except.ok x
    | none => Except.error PyErr.keyError
  | _ => Except.error PyErr.typeError

/-- Python `v[i]` for a non-negative integer index: list/str indexing
(`IndexError` out of range); an integer key never matches a dict whose keys
are strings, so a dict raises `KeyError`. -/
def pySubscriptNat (v : Json) (i : Nat) : Except PyErr Json :=
  match v with
  | Json.arr l =>
    match l.get? i with
    | some x => Except.ok x
    | none => Except.error PyErr.indexError
  | Json.str s =>
    match s.data.get? i with
    | some c => Except.ok (Json.str (String.mk [c]))
    | none => Except.error PyErr.indexError
  | Json.obj _ => Except.error PyErr.keyError
  | _ => Except.error PyErr.typeError

/-- Python `iter(v)`: a list yields its elements, a dict yields its keys
(strings), a string yields its one-character substrings; other values are
not iterable (`TypeError`). -/
def pyIter (v : Json) : Except PyErr (List Json) :=
  match v with
  | Json.arr l => Except.ok l
  | Json.obj fields => Except.ok (fields.map (fun p => Json.str p.1))
  | Json.str s => Except.ok (s.data.map (fun c => Json.str (String.mk [c])))
  | _ => Except.error PyErr.typeError

/-- Python equality test of a JSON value against a string literal: true
exactly when the value is that string (any non-string compares unequal,
never raising). -/
def jsonEqStr (v : Json) (s : String) : Bool :=
  match v with
  | Json.str s2 => s2 == s
  | _ => false

/-- Substring containment on character lists, for the Python `in` test on
strings. -/
def listContainsSub (needle : List Char) : List Char → Bool
  | [] => needle.isEmpty
  | c :: rest => List.isPrefixOf needle (c :: rest) || listContainsSub needle rest

/-- Python `k in v` for a string `k`: key membership for a dict, element
membership for a list, substring test for a string, `TypeError` otherwise. -/
def pyContains (v : Json) (k : String) : Except PyErr Bool :=
  match v with
  | Json.obj fields => Except.ok (fields.any (fun p => p.1 == k))
  | Json.arr l => Except.ok (l.any (fun x => jsonEqStr x k))
  | Json.str s => Except.ok (listContainsSub k.data s.data)
  | _ => Except.error PyErr.typeError

/-- Message of the error `_make_request` raises on any status other than
200, 401 and 404 (`leonardo_ai.py:82-83`). -/
def apiFailMsg (status_code : Nat) (text : String) : String :=
  s!"API request failed with status {status_code}: {text}"

/-- Message of the 404 error of `_make_request` (`leonardo_ai.py:79-80`). -/
def notFoundMsg (endpoint : String) : String :=
  s!"Not Found: The endpoint {endpoint} was not found."

/-- The method `LeonardoAI._make_request` (`leonardo_ai.py:62-83`): returns
the parsed body on a 200 response and classifies every other status code
into a `LeonardoAIError`. -/
def _make_request (method : String) (endpoint : String) (resp : HttpResponse) :
    Except PyErr Json :=
  if resp.status_code == 200 then Except.ok resp.body
  else if resp.status_code == 401 then
    Except.error (PyErr.leonardoAIError "Unauthorized: Check your API key.")
  else if resp.status_code == 404 then
    Except.error (PyErr.leonardoAIError (notFoundMsg endpoint))
  else
    Except.error (PyErr.leonardoAIError (apiFailMsg resp.status_code resp.text))

/-- Message of the error `get_single_generation` raises when the extracted
image list is falsy (`leonardo_ai.py:131-133`). -/
def generationNotFoundMsg (generation_id : String) : String :=
  s!"Generation with ID {generation_id} not found in the response"

/-- The method `LeonardoAI.get_single_generation` (`leonardo_ai.py:117-141`):
fetches `generations/{id}`, reads
`response.get('generations_by_pk', {}).get('generated_images', [])`, raises
when that list is falsy, and otherwise returns the whole
`response['generations_by_pk']` record.  Both `except` clauses of the
source re-raise, so every error propagates unchanged. -/
def get_single_generation (generation_id : String) (resp : HttpResponse) :
    Except PyErr Json :=
  match _make_request "GET" (String.append "generations/" generation_id) resp with
  | Except.error e => Except.error e
  | Except.ok response =>
    match pyDictGetD response "generations_by_pk" (Json.obj []) with
    | Except.error e => Except.error e
    | Except.ok gbp =>
      match pyDictGetD gbp "generated_images" (Json.arr []) with
      | Except.error e => Except.error e
      | Except.ok generated_images =>
        if truthy generated_images then pySubscript response "generations_by_pk"
        else Except.error (PyErr.leonardoAIError (generationNotFoundMsg generation_id))

/-- The list comprehension `[image['id'] for image in generation_info]` of
`list_image_ids_from_generation` (`leonardo_ai.py:407`), with Python
iteration and subscripting semantics; it stops at the first raising
element. -/
def image_id_list (generation_info : Json) : Except PyErr (List Json) :=
  match pyIter generation_info with
  | Except.error e => Except.error e
  | Except.ok items => items.mapM (fun image => pySubscript image "id")

/-- The method `LeonardoAI.list_image_ids_from_generation`
(`leonardo_ai.py:398-410`): runs `get_single_generation` and the id
comprehension inside a blanket `try`, and converts any exception into the
return value `[]`. -/
def list_image_ids_from_generation (generation_id : String) (resp : HttpResponse) :
    List Json :=
  match get_single_generation generation_id resp with
  | Except.error _ => []
  | Except.ok generation_info =>
    match image_id_list generation_info with
    | Except.ok ids => ids
    | Except.error _ => []

/-- The method `LeonardoAI.delete_generation_by_id` (`leonardo_ai.py:573-582`):
issues the DELETE request and catches every exception, printing a log line;
it returns `None` on both the success and the failure path. -/
def delete_generation_by_id (generation_id : String) (resp : HttpResponse) :
    Except PyErr Unit :=
  match _make_request "DELETE" (String.append "generations/" generation_id) resp with
  | Except.ok _ => Except.ok ()
  | Except.error _ => Except.ok ()

/-- The method `LeonardoAI.get_generations_by_user_id`
(`leonardo_ai.py:560-571`): fetches the user's generations and returns
`response.get('generations', [])`; every exception is caught, printed and
converted into the return value `[]`. -/
def get_generations_by_user_id (user_id : String) (resp : HttpResponse) : Json :=
  match (match _make_request "GET" (String.append "generations/user/" user_id) resp with
         | Except.error e => Except.error e
         | Except.ok response => pyDictGetD response "generations" (Json.arr [])) with
  | Except.ok gens => gens
  | Except.error _ => Json.arr []

/-- The parameters of `LeonardoAI.generate_images` (`leonardo_ai.py:143-182`)
that end up in the request payload, one field per Python keyword argument,
in signature order.  Python is dynamically typed, so every field holds a
JSON value; `Json.null` is Python `None`.  The non-payload parameters
`wait_for_completion` and `template_name` are passed to `generate_images`
separately. -/
structure GenArgs where
  prompt : Json
  model_id : Json
  num_images : Json
  width : Json
  height : Json
  alchemy : Json
  photoReal : Json
  photoRealVersion : Json
  presetStyle : Json
  guidance_scale : Json
  contrastRatio : Json
  controlnets : Json
  elements : Json
  expandedDomain : Json
  fantasyAvatar : Json
  highContrast : Json
  highResolution : Json
  imagePrompts : Json
  imagePromptWeight : Json
  init_generation_image_id : Json
  init_image_id : Json
  init_strength : Json
  negative_prompt : Json
  num_inference_steps : Json
  photoRealStrength : Json
  promptMagic : Json
  promptMagicStrength : Json
  promptMagicVersion : Json
  public : Json
  scheduler : Json
  sd_version : Json
  seed : Json
  tiling : Json
  transparency : Json
  unzoom : Json
  unzoomAmount : Json
  upscaleRatio : Json

/-- The default values of the `generate_images` signature
(`leonardo_ai.py:143-182`), with the required `prompt` supplied by the
caller. -/
def defaultGenArgs (prompt : Json) : GenArgs where
  prompt := prompt
  model_id := Json.null
  num_images := Json.num 1
  width := Json.num 1024
  height := Json.num 1024
  alchemy := Json.bool true
  photoReal := Json.bool true
  photoRealVersion := Json.str "v2"
  presetStyle := Json.str "DYNAMIC"
  guidance_scale := Json.num 7
  contrastRatio := Json.null
  controlnets := Json.null
  elements := Json.null
  expandedDomain := Json.bool false
  fantasyAvatar := Json.bool false
  highContrast := Json.bool false
  highResolution := Json.bool false
  imagePrompts := Json.null
  imagePromptWeight := Json.null
  init_generation_image_id := Json.null
  init_image_id := Json.null
  init_strength := Json.null
  negative_prompt := Json.null
  num_inference_steps := Json.num 15
  photoRealStrength := Json.null
  promptMagic := Json.bool false
  promptMagicStrength := Json.null
  promptMagicVersion := Json.null
  public := Json.null
  scheduler := Json.null
  sd_version := Json.null
  seed := Json.null
  tiling := Json.null
  transparency := Json.null
  unzoom := Json.null
  unzoomAmount := Json.null
  upscaleRatio := Json.null

/-- The `photoreal_v2_models` dict of `generate_images`
(`leonardo_ai.py:226-230`). -/
def photoreal_v2_models : List (String × String) :=
  [("Leonardo Kino XL", "aa77f04e-3eec-4034-9c07-d0f619684628"),
   ("Leonardo Diffusion XL", "1e60896f-3c26-4296-8ecc-53e2afecc132"),
   ("Leonardo Vision XL", "5c232a9e-9061-4777-980a-ddc8e65647c6")]

/-- Python `model_id in photoreal_v2_models.values()`
(`leonardo_ai.py:251`). -/
def isPhotoRealV2Model (model_id : Json) : Bool :=
  photoreal_v2_models.any (fun p => jsonEqStr model_id p.2)

/-- The template-merge block of `generate_images` (`leonardo_ai.py:232-248`):
when `template_name` is truthy and is a key of the loaded registry, the
thirteen listed parameters are reassigned to `template.get(field, arg)` —
the template value when the template has the field, the caller's argument
otherwise.  A stored template that is not a dict makes `.get` raise
`AttributeError`. -/
def mergeTemplate (templates : List (String × Json)) (template_name : Option String)
    (args : GenArgs) : Except PyErr GenArgs :=
  match template_name with
  | none => Except.ok args
  | some name =>
    if name == "" then Except.ok args
    else
      match dictGet templates name with
      | none => Except.ok args
      | some (Json.obj t) =>
        Except.ok { args with
          prompt := (dictGet t "prompt").getD args.prompt
          model_id := (dictGet t "model_id").getD args.model_id
          num_images := (dictGet t "num_images").getD args.num_images
          width := (dictGet t "width").getD args.width
          height := (dictGet t "height").getD args.height
          alchemy := (dictGet t "alchemy").getD args.alchemy
          photoReal := (dictGet t "photoReal").getD args.photoReal
          photoRealVersion := (dictGet t "photoRealVersion").getD args.photoRealVersion
          presetStyle := (dictGet t "presetStyle").getD args.presetStyle
          guidance_scale := (dictGet t "guidance_scale").getD args.guidance_scale
          num_inference_steps :=
            (dictGet t "num_inference_steps").getD args.num_inference_steps
          init_image_id := (dictGet t "init_image_id").getD args.init_image_id
          init_strength := (dictGet t "init_strength").getD args.init_strength }
      | some _ => Except.error PyErr.attributeError

/-- Message of the PhotoReal-v2 validation error (`leonardo_ai.py:252-253`). -/
def photoRealV2ErrorMsg : String :=
  "PhotoReal v2 requires a model id specified as either Leonardo Kino XL, Leonardo Diffusion XL, or Leonardo Vision XL."

/-- The parameter-resolution prefix of `generate_images`
(`leonardo_ai.py:232-254`): template merge followed by the PhotoReal-v2
cross-field check, which raises when the resolved `model_id` is not one of
the three allow-listed ids and otherwise forces `alchemy = True`. -/
def resolveRequest (templates : List (String × Json)) (template_name : Option String)
    (args : GenArgs) : Except PyErr GenArgs :=
  match mergeTemplate templates template_name args with
  | Except.error e => Except.error e
  | Except.ok merged =>
    if jsonEqStr merged.photoRealVersion "v2" then
      if isPhotoRealV2Model merged.model_id then
        Except.ok { merged with alchemy := Json.bool true }
      else Except.error (PyErr.leonardoAIError photoRealV2ErrorMsg)
    else Except.ok merged

/-- The request payload of `generate_images` (`leonardo_ai.py:256-294`), in
source order. -/
def buildPayload (r : GenArgs) : Json :=
  Json.obj
    [("prompt", r.prompt),
     ("modelId", r.model_id),
     ("num_images", r.num_images),
     ("width", r.width),
     ("height", r.height),
     ("alchemy", r.alchemy),
     ("photoReal", r.photoReal),
     ("photoRealVersion", r.photoRealVersion),
     ("presetStyle", r.presetStyle),
     ("guidance_scale", r.guidance_scale),
     ("contrastRatio", r.contrastRatio),
     ("controlnets", r.controlnets),
     ("elements", r.elements),
     ("expandedDomain", r.expandedDomain),
     ("fantasyAvatar", r.fantasyAvatar),
     ("highContrast", r.highContrast),
     ("highResolution", r.highResolution),
     ("imagePrompts", r.imagePrompts),
     ("imagePromptWeight", r.imagePromptWeight),
     ("init_generation_image_id", r.init_generation_image_id),
     ("init_image_id", r.init_image_id),
     ("init_strength", r.init_strength),
     ("negative_prompt", r.negative_prompt),
     ("num_inference_steps", r.num_inference_steps),
     ("photoRealStrength", r.photoRealStrength),
     ("promptMagic", r.promptMagic),
     ("promptMagicStrength", r.promptMagicStrength),
     ("promptMagicVersion", r.promptMagicVersion),
     ("public", r.public),
     ("scheduler", r.scheduler),
     ("sd_version", r.sd_version),
     ("seed", r.seed),
     ("tiling", r.tiling),
     ("transparency", r.transparency),
     ("unzoom", r.unzoom),
     ("unzoomAmount", r.unzoomAmount),
     ("upscaleRatio", r.upscaleRatio)]

/-- Python `v.get(k)` with no default: `None` when the key is absent,
`AttributeError` when `v` is not a dict (`generation_data.get(...)` at
`leonardo_ai.py:298-299`). -/
def pyDictGet (v : Json) (k : String) : Except PyErr Json :=
  pyDictGetD v k Json.null

/-- The string content of a generation id extracted from a response; the ids
the service returns are JSON strings. -/
def jsonAsString : Json → String
  | Json.str s => s
  | _ => ""

/-- Message of the timeout error of `wait_for_generation_completion`
(`leonardo_ai.py:330-331`). -/
def generationTimeoutMsg (generation_id : String) (timeout : Nat) : String :=
  s!"Generation {generation_id} did not complete within {timeout} seconds"

/-- One tick plus the rest of the `wait_for_generation_completion` loop
(`leonardo_ai.py:321-331`).  `n` is the tick index, so the elapsed clock at
its `while` check is `n * poll_interval`; the second component of the result
is the number of status requests issued.  Only `LeonardoAIError` is caught
and retried; any other exception propagates.  The fuel argument only bounds
the recursion; `timeout + 1` iterations are enough whenever
`poll_interval ≥ 1`. -/
def waitAux (generation_id : String) (pollResps : Nat → HttpResponse)
    (poll_interval timeout : Nat) : Nat → Nat → Except PyErr Json × Nat
  | 0, n => (Except.error PyErr.nonTermination, n)
  | fuel + 1, n =>
    if n * poll_interval < timeout then
      match get_single_generation generation_id (pollResps n) with
      | Except.ok generation_info =>
        if truthy generation_info then (Except.ok generation_info, n + 1)
        else waitAux generation_id pollResps poll_interval timeout fuel (n + 1)
      | Except.error (PyErr.leonardoAIError _m) =>
        waitAux generation_id pollResps poll_interval timeout fuel (n + 1)
      | Except.error e => (Except.error e, n + 1)
    else
      (Except.error (PyErr.leonardoAIError (generationTimeoutMsg generation_id timeout)), n)

/-- The method `LeonardoAI.wait_for_generation_completion`
(`leonardo_ai.py:313-331`), returning the terminal outcome together with the
number of status requests issued. -/
def wait_for_generation_completion (generation_id : String)
    (pollResps : Nat → HttpResponse) (poll_interval : Nat := 10)
    (timeout : Nat := 300) : Except PyErr Json × Nat :=
  waitAux generation_id pollResps poll_interval timeout (timeout + 1) 0

/-- The method `LeonardoAI.generate_images` (`leonardo_ai.py:143-311`):
template merge and PhotoReal-v2 validation (`resolveRequest`), then one POST
of the payload, extraction of
`generation_data.get('sdGenerationJob', {}).get('generationId')`, and — when
`wait_for_completion` is set — the completion-wait loop.  `submitResp` is
the response to the POST and `pollResps` the stream of poll responses; the
second component of the result counts the requests issued, so a validation
failure shows `0` there. -/
def generate_images (templates : List (String × Json)) (args : GenArgs)
    (wait_for_completion : Bool) (template_name : Option String)
    (submitResp : HttpResponse) (pollResps : Nat → HttpResponse)
    (poll_interval : Nat := 10) (timeout : Nat := 300) :
    Except PyErr Json × Nat :=
  match resolveRequest templates template_name args with
  | Except.error e => (Except.error e, 0)
  | Except.ok r =>
    let _payload := buildPayload r
    match _make_request "POST" "generations" submitResp with
    | Except.error e => (Except.error e, 1)
    | Except.ok generation_data =>
      match pyDictGetD generation_data "sdGenerationJob" (Json.obj []) with
      | Except.error e => (Except.error e, 1)
      | Except.ok sdJob =>
        match pyDictGet sdJob "generationId" with
        | Except.error e => (Except.error e, 1)
        | Except.ok generation_id =>
          if truthy generation_id then
            if wait_for_completion then
              match wait_for_generation_completion (jsonAsString generation_id)
                  pollResps poll_interval timeout with
              | (Except.ok images_info, c) =>
                (Except.ok (Json.obj
                  [("generation_id", generation_id), ("image_info", images_info)]), 1 + c)
              | (Except.error e, c) => (Except.error e, 1 + c)
            else (Except.ok (Json.obj [("generation_id", generation_id)]), 1)
          else (Except.error (PyErr.leonardoAIError "Failed to start image generation"), 1)

/-- The status lookup
`job_status['generated_image_variation_generic'][0]['status']` of
`_poll_job_completion` (`leonardo_ai.py:102-104`). -/
def jobItemStatus (job_status : Json) : Except PyErr Json :=
  match pySubscript job_status "generated_image_variation_generic" with
  | Except.error e => Except.error e
  | Except.ok lst =>
    match pySubscriptNat lst 0 with
    | Except.error e => Except.error e
    | Except.ok item => pySubscript item "status"

/-- The body of one `try` block of `_poll_job_completion`
(`leonardo_ai.py:96-108`): `ok (some s)` is the `return job_status` path,
`ok none` falls through to the sleep, and `error e` is a raised exception —
which the loop's own blanket `except` then swallows. -/
def poll_tick (resp : HttpResponse) : Except PyErr (Option Json) :=
  if resp.status_code == 200 then
    match pyContains resp.body "generated_image_variation_generic" with
    | Except.error e => Except.error e
    | Except.ok true =>
      match jobItemStatus resp.body with
      | Except.error e => Except.error e
      | Except.ok st =>
        if jsonEqStr st "COMPLETE" then Except.ok (some resp.body)
        else if jsonEqStr st "FAILED" then
          Except.error (PyErr.leonardoAIError "Job failed.")
        else Except.ok none
    | Except.ok false => Except.ok none
  else Except.error (PyErr.leonardoAIError (apiFailMsg resp.status_code resp.text))

/-- Message of the timeout error of `_poll_job_completion`
(`leonardo_ai.py:114-115`). -/
def jobTimeoutMsg (job_id : String) (timeout : Nat) : String :=
  s!"Job {job_id} did not complete within {timeout} seconds"

/-- One `while` check plus the rest of the `_poll_job_completion` loop
(`leonardo_ai.py:94-115`).  `n` is the tick index (elapsed clock
`n * poll_interval` at the check); the second component of the result is the
elapsed clock when the loop exits.  Every exception raised inside the `try`
block — including the `LeonardoAIError("Job failed.")` of the FAILED branch
— is caught by the blanket `except`, printed and followed by the sleep, so
an `error` tick continues the loop exactly like a pending tick. -/
def pollAux (job_id : String) (responses : Nat → HttpResponse)
    (poll_interval timeout : Nat) : Nat → Nat → Except PyErr Json × Nat
  | 0, n => (Except.error PyErr.nonTermination, n * poll_interval)
  | fuel + 1, n =>
    if n * poll_interval < timeout then
      match poll_tick (responses n) with
      | Except.ok (some job_status) => (Except.ok job_status, n * poll_interval)
      | Except.ok none => pollAux job_id responses poll_interval timeout fuel (n + 1)
      | Except.error _e => pollAux job_id responses poll_interval timeout fuel (n + 1)
    else
      (Except.error (PyErr.leonardoAIError (jobTimeoutMsg job_id timeout)), n * poll_interval)

/-- The method `LeonardoAI._poll_job_completion` (`leonardo_ai.py:85-115`),
returning the terminal outcome together with the elapsed clock at loop
exit. -/
def _poll_job_completion (job_id : String) (responses : Nat → HttpResponse)
    (poll_interval : Nat := 10) (timeout : Nat := 300) : Except PyErr Json × Nat :=
  pollAux job_id responses poll_interval timeout (timeout + 1) 0

/-- The method `LeonardoAI.get_template` (`leonardo_ai.py:494-501`):
`templates.get(template_name, {})`. -/
def get_template (template_name : String) (templates : List (String × Json)) : Json :=
  (dictGet templates template_name).getD (Json.obj [])

/-- Message of the error `generate_image_from_template` raises when the
template is falsy (`leonardo_ai.py:515`). -/
def templateNotFoundMsg (template_name : String) : String :=
  s!"Template {template_name} not found."

/-- The method `LeonardoAI.generate_image_from_template`
(`leonardo_ai.py:503-515`), with the registry state made explicit.  The
source looks the template up with `get_template` — which returns the stored
dict itself, not a copy — and, when it is truthy, executes
`template['prompt'] = prompt` on that alias before calling
`generate_images(**template)`.  The in-place assignment therefore also
rewrites the entry of `self.templates`; the model returns the registry
after the call together with the keyword dict handed to `generate_images`.
A truthy stored template that is not a dict makes the item assignment raise
`TypeError`. -/
def generate_image_from_template (templates : List (String × Json)) (prompt : String)
    (template_name : String) : Except PyErr (List (String × Json) × Json) :=
  let template := get_template template_name templates
  if truthy template then
    match template with
    | Json.obj t =>
      let mutated := Json.obj (dictSet t "prompt" (Json.str prompt))
      Except.ok (dictSet templates template_name mutated, mutated)
    | _ => Except.error PyErr.typeError
  else Except.error (PyErr.leonardoAIError (templateNotFoundMsg template_name))

/-- The names of the thirteen `generate_images` parameters reassigned by the
template-merge block (`leonardo_ai.py:234-248`). -/
def mergedFieldNames : List String :=
  ["prompt", "model_id", "num_images", "width", "height", "alchemy", "photoReal",
   "photoRealVersion", "presetStyle", "guidance_scale", "num_inference_steps",
   "init_image_id", "init_strength"]

/-- Projection of a `GenArgs` record by the Python parameter name, for the
fields the template-merge block touches. -/
def getMergedField (a : GenArgs) (f : String) : Option Json :=
  if f = "prompt" then some a.prompt
  else if f = "model_id" then some a.model_id
  else if f = "num_images" then some a.num_images
  else if f = "width" then some a.width
  else if f = "height" then some a.height
  else if f = "alchemy" then some a.alchemy
  else if f = "photoReal" then some a.photoReal
  else if f = "photoRealVersion" then some a.photoRealVersion
  else if f = "presetStyle" then some a.presetStyle
  else if f = "guidance_scale" then some a.guidance_scale
  else if f = "num_inference_steps" then some a.num_inference_steps
  else if f = "init_image_id" then some a.init_image_id
  else if f = "init_strength" then some a.init_strength
  else none

/-- A registry whose template `t` fixes the prompt to `"T"`. -/
def c1_templates : List (String × Json) := [("t", Json.obj [("prompt", Json.str "T")])]

/-- Caller arguments that explicitly pass the prompt `"O"`. -/
def c1_args : GenArgs := defaultGenArgs (Json.str "O")

/-- A registry whose template `t` fixes the width to `512`. -/
def c1w_templates : List (String × Json) := [("t", Json.obj [("width", Json.num 512)])]

/-- The terminal payload of the spec's extraction example. -/
def c2_payload : Json :=
  Json.obj [("generations_by_pk", Json.obj [("generated_images",
    Json.arr [Json.obj [("id", Json.str "abc"), ("url", Json.str "http://x/1.jpg")]])])]

/-- The artifact list the spec's extraction example expects. -/
def c2_artifacts : Json :=
  Json.arr [Json.obj [("id", Json.str "abc"), ("url", Json.str "http://x/1.jpg")]]

/-- A 200 response carrying the extraction-example payload. -/
def c2_resp : HttpResponse := ⟨200, "", c2_payload⟩

/-- A 200 status response whose job-level flag is FAILED. -/
def failedHttpResponse : HttpResponse :=
  ⟨200, "", Json.obj [("generated_image_variation_generic",
    Json.arr [Json.obj [("status", Json.str "FAILED")]])]⟩

/-- A 200 status response whose job-level flag is PENDING. -/
def pendingHttpResponse : HttpResponse :=
  ⟨200, "", Json.obj [("generated_image_variation_generic",
    Json.arr [Json.obj [("status", Json.str "PENDING")]])]⟩

/-- A registry whose template `t` holds a prompt and a width. -/
def c4_templates : List (String × Json) :=
  [("t", Json.obj [("prompt", Json.str "old"), ("width", Json.num 512)])]

/-- The registry `c4_templates` after `generate_image_from_template` has run
with prompt `"new"`. -/
def c4_mutated : List (String × Json) :=
  [("t", Json.obj [("prompt", Json.str "new"), ("width", Json.num 512)])]

/-- Caller arguments with the PhotoReal-v2 mode turned off, so that the
resolution block has nothing to validate. -/
def c5_args : GenArgs := { defaultGenArgs (Json.str "p") with photoRealVersion := Json.str "v1" }

/-- A 200 submission response carrying a generation id. -/
def okSubmitResp : HttpResponse :=
  ⟨200, "", Json.obj [("sdGenerationJob", Json.obj [("generationId", Json.str "gen-1")])]⟩

/-- A 200 response with a null body. -/
def nullResp : HttpResponse := ⟨200, "", Json.null⟩

/-- A failing (HTTP 500) response. -/
def errResp : HttpResponse := ⟨500, "boom", Json.null⟩

/-- Caller arguments in PhotoReal-v2 mode with `alchemy=False` explicitly and
an allow-listed model id. -/
def c7_args : GenArgs :=
  { defaultGenArgs (Json.str "p") with
    alchemy := Json.bool false
    model_id := Json.str "aa77f04e-3eec-4034-9c07-d0f619684628" }

theorem make_request_ne200 (method endpoint : String) (resp : HttpResponse)
    (h : ¬ resp.status_code = 200) :
    ∃ e, _make_request method endpoint resp = Except.error e := by
  unfold _make_request
  have hb : (resp.status_code == 200) = false := beq_eq_false_iff_ne.mpr h
  rw [hb]
  simp only [Bool.false_eq_true, if_false]
  by_cases h1 : (resp.status_code == 401) = true
  · rw [if_pos h1]; exact ⟨_, rfl⟩
  · rw [if_neg h1]
    by_cases h2 : (resp.status_code == 404) = true
    · rw [if_pos h2]; exact ⟨_, rfl⟩
    · rw [if_neg h2]; exact ⟨_, rfl⟩

theorem get_single_generation_ok_obj (generation_id : String) (resp : HttpResponse)
    (info : Json) (h : get_single_generation generation_id resp = Except.ok info) :
    ∃ l, info = Json.obj l := by
  unfold get_single_generation at h
  split at h
  · exact Except.noConfusion h
  · rename_i response heqm
    split at h
    · exact Except.noConfusion h
    · rename_i gbp heq2
      split at h
      · exact Except.noConfusion h
      · rename_i generated_images heq3
        split at h
        · cases response with
          | obj fields =>
            cases gbp with
            | obj gf =>
              unfold pySubscript at h
              replace h : (match dictGet fields "generations_by_pk" with
                  | some x => Except.ok x
                  | none => Except.error PyErr.keyError) = Except.ok info := h
              cases hd : dictGet fields "generations_by_pk" with
              | none => rw [hd] at h; exact Except.noConfusion h
              | some x =>
                rw [hd] at h
                rw [show pyDictGetD (Json.obj fields) "generations_by_pk" (Json.obj []) =
                      Except.ok ((dictGet fields "generations_by_pk").getD (Json.obj []))
                    from rfl] at heq2
                have hx2 := Except.ok.inj heq2
                rw [hd, Option.getD_some] at hx2
                exact ⟨gf, ((Except.ok.inj h).symm.trans hx2 : info = Json.obj gf)⟩
            | null => exact Except.noConfusion heq3
            | bool b => exact Except.noConfusion heq3
            | num n => exact Except.noConfusion heq3
            | str s2 => exact Except.noConfusion heq3
            | arr l => exact Except.noConfusion heq3
          | null => exact Except.noConfusion heq2
          | bool b => exact Except.noConfusion heq2
          | num n => exact Except.noConfusion heq2
          | str s2 => exact Except.noConfusion heq2
          | arr l => exact Except.noConfusion heq2
        · exact Except.noConfusion h

/-- C10: for every generation id and every API response,
`list_image_ids_from_generation` returns the empty list: a successful
`get_single_generation` hands back the `generations_by_pk` record as a
mapping, so the comprehension iterates over its string keys, `image['id']`
on a string raises `TypeError`, and the blanket handler turns every run —
error or not — into `[]`. -/
theorem list_image_ids_always_empty (generation_id : String) (resp : HttpResponse) :
    list_image_ids_from_generation generation_id resp = [] := by
  unfold list_image_ids_from_generation
  cases h : get_single_generation generation_id resp with
  | error e => rfl
  | ok info =>
    obtain ⟨l, rfl⟩ := get_single_generation_ok_obj generation_id resp info h
    cases l with
    | nil => rfl
    | cons p rest => rfl

/-- C2 counterexample: on the spec's terminal payload, the extractor
`get_single_generation` does not return the artifact list. -/
theorem get_single_generation_not_artifact_list :
    get_single_generation "abc" c2_resp ≠ Except.ok c2_artifacts :=
  fun hh => Json.noConfusion (Except.ok.inj hh)

/-- C2 (corrected): on the spec's terminal payload, `get_single_generation`
returns the whole `generations_by_pk` record — the object that contains the
artifact list under the key `generated_images` — not the artifact list
itself. -/
theorem get_single_generation_returns_record :
    get_single_generation "abc" c2_resp =
      Except.ok (Json.obj [("generated_images", c2_artifacts)]) := rfl

/-- C1 counterexample: with a template fixing the prompt to `"T"` and the
caller explicitly passing prompt `"O"`, the merged request carries the
template's `"T"`, not the override's `"O"`. -/
theorem mergeTemplate_template_beats_override :
    mergeTemplate c1_templates (some "t") c1_args =
      Except.ok { c1_args with prompt := Json.str "T" } ∧
    ¬ Json.str "T" = Json.str "O" :=
  ⟨rfl, fun hh => by injection hh with h2; exact absurd h2 (by decide)⟩

/-- C1 (corrected): for every field the merge block touches that is present
in the selected template, the resolved value equals the TEMPLATE's value —
`template.get(field, arg)` prefers the template — and the caller's explicit
argument is only the fallback for fields the template lacks. -/
theorem mergeTemplate_template_wins (templates t : List (String × Json))
    (name f : String) (args merged : GenArgs) (v : Json)
    (hn : ¬ name = "") (ht : dictGet templates name = some (Json.obj t))
    (hm : mergeTemplate templates (some name) args = Except.ok merged)
    (hf : f ∈ mergedFieldNames) (hv : dictGet t f = some v) :
    getMergedField merged f = some v := by
  have hb : (name == "") = false := by simpa using hn
  simp only [mergeTemplate, hb, Bool.false_eq_true, if_false, ht] at hm
  replace hm := Except.ok.inj hm
  subst hm
  fin_cases hf <;> simp [getMergedField, hv]

/-- Witness for C1's corrected statement at a concrete registry. -/
theorem mergeTemplate_template_wins_witness :
    getMergedField { defaultGenArgs (Json.str "p") with width := Json.num 512 } "width" =
      some (Json.num 512) :=
  mergeTemplate_template_wins c1w_templates [("width", Json.num 512)] "t" "width"
    (defaultGenArgs (Json.str "p"))
    { defaultGenArgs (Json.str "p") with width := Json.num 512 }
    (Json.num 512) (by decide) rfl rfl (by decide) rfl

/-- C4 counterexample: calling `generate_image_from_template` on a stored
template rewrites that template inside the registry — the registry after the
call differs from the registry before it. -/
theorem generate_image_from_template_mutates_registry :
    generate_image_from_template c4_templates "new" "t" =
      Except.ok (c4_mutated, Json.obj [("prompt", Json.str "new"), ("width", Json.num 512)]) ∧
    ¬ c4_mutated = c4_templates :=
  ⟨rfl, by simp [c4_mutated, c4_templates]⟩

/-- C4 (corrected): `get_template` itself only reads, but
`generate_image_from_template` aliases the stored template and executes
`template['prompt'] = prompt` on it, so after any call on a registered
non-empty template the registry's entry for that name carries the caller's
prompt. -/
theorem generate_image_from_template_writes_prompt (templates t : List (String × Json))
    (name prompt : String)
    (ht : dictGet templates name = some (Json.obj t)) (hne : ¬ t = []) :
    generate_image_from_template templates prompt name =
      Except.ok (dictSet templates name (Json.obj (dictSet t "prompt" (Json.str prompt))),
                 Json.obj (dictSet t "prompt" (Json.str prompt))) := by
  unfold generate_image_from_template get_template
  rw [ht, Option.getD_some]
  have htr : truthy (Json.obj t) = true := by
    cases t with
    | nil => exact absurd rfl hne
    | cons a l => rfl
  simp only [htr, if_true]

/-- Witness for C4's corrected statement at a concrete registry. -/
theorem generate_image_from_template_writes_prompt_witness :
    generate_image_from_template [("k", Json.obj [("a", Json.null)])] "x" "k" =
      Except.ok ([("k", Json.obj [("a", Json.null), ("prompt", Json.str "x")])],
                 Json.obj [("a", Json.null), ("prompt", Json.str "x")]) :=
  generate_image_from_template_writes_prompt [("k", Json.obj [("a", Json.null)])]
    [("a", Json.null)] "k" "x" rfl (by simp)

/-- C5 counterexample: `generate_images` called with the explicitly requested
template name `"missing"`, absent from the (empty) registry, does not fail —
it silently proceeds without the template and issues its one submission
request. -/
theorem generate_images_unknown_template_proceeds :
    generate_images [] c5_args false (some "missing") okSubmitResp (fun _ => nullResp) 10 300 =
      (Except.ok (Json.obj [("generation_id", Json.str "gen-1")]), 1) := rfl

/-- C5 (corrected): only `generate_image_from_template` rejects an unknown
template name with an error; `generate_images` guards its merge with
`template_name in self.templates` and silently proceeds with the caller's
arguments when the name is absent. -/
theorem unknown_template_split_behavior :
    (∀ (templates : List (String × Json)) (prompt name : String),
      dictGet templates name = none →
      generate_image_from_template templates prompt name =
        Except.error (PyErr.leonardoAIError (templateNotFoundMsg name))) ∧
    (∀ (templates : List (String × Json)) (name : String) (args : GenArgs),
      dictGet templates name = none →
      mergeTemplate templates (some name) args = Except.ok args) := by
  constructor
  · intro templates prompt name h
    unfold generate_image_from_template get_template
    rw [h]
    rfl
  · intro templates name args h
    cases hb : (name == "") with
    | true => simp only [mergeTemplate, hb, if_true]
    | false => simp only [mergeTemplate, hb, Bool.false_eq_true, if_false, h]

/-- Witness for C5's corrected statement at a concrete registry. -/
theorem unknown_template_split_behavior_witness :
    generate_image_from_template [] "p" "x" =
      Except.error (PyErr.leonardoAIError (templateNotFoundMsg "x")) ∧
    mergeTemplate [] (some "x") (defaultGenArgs (Json.str "p")) =
      Except.ok (defaultGenArgs (Json.str "p")) :=
  ⟨unknown_template_split_behavior.1 [] "p" "x" rfl,
   unknown_template_split_behavior.2 [] "x" (defaultGenArgs (Json.str "p")) rfl⟩

/-- C6: whenever the resolved parameters have `photoRealVersion = "v2"` and a
model id outside the three-element allow-list, `generate_images` fails with
the PhotoReal-v2 validation error and issues zero network requests —
whatever the transport would have answered. -/
theorem generate_images_photoreal_v2_fail_fast
    (templates : List (String × Json)) (template_name : Option String)
    (args merged : GenArgs) (wait : Bool) (submitResp : HttpResponse)
    (pollResps : Nat → HttpResponse) (i t : Nat)
    (hm : mergeTemplate templates template_name args = Except.ok merged)
    (hv : merged.photoRealVersion = Json.str "v2")
    (ha : isPhotoRealV2Model merged.model_id = false) :
    generate_images templates args wait template_name submitResp pollResps i t =
      (Except.error (PyErr.leonardoAIError photoRealV2ErrorMsg), 0) := by
  have hr : resolveRequest templates template_name args =
      Except.error (PyErr.leonardoAIError photoRealV2ErrorMsg) := by
    simp only [resolveRequest, hm, hv, ha, Bool.false_eq_true, if_false]
    simp [jsonEqStr]
  unfold generate_images
  rw [hr]

/-- Witness for C6 at the signature defaults (`photoRealVersion="v2"`,
`model_id=None`): even with transports that would answer, nothing is sent. -/
theorem generate_images_photoreal_v2_fail_fast_witness :
    generate_images [] (defaultGenArgs (Json.str "p")) true none errResp (fun _ => errResp)
      10 300 = (Except.error (PyErr.leonardoAIError photoRealV2ErrorMsg), 0) :=
  generate_images_photoreal_v2_fail_fast [] none (defaultGenArgs (Json.str "p"))
    (defaultGenArgs (Json.str "p")) true errResp (fun _ => errResp) 10 300 rfl rfl rfl

/-- C7: whenever the resolved parameters have `photoRealVersion = "v2"` and an
allow-listed model id, resolution forces `alchemy := true` on the resolved
request, regardless of the alchemy value the merge produced. -/
theorem resolveRequest_forces_alchemy
    (templates : List (String × Json)) (template_name : Option String)
    (args merged : GenArgs)
    (hm : mergeTemplate templates template_name args = Except.ok merged)
    (hv : merged.photoRealVersion = Json.str "v2")
    (ha : isPhotoRealV2Model merged.model_id = true) :
    resolveRequest templates template_name args =
      Except.ok { merged with alchemy := Json.bool true } := by
  simp only [resolveRequest, hm, hv, ha, if_true]
  simp [jsonEqStr]

/-- Witness for C7: caller passes `alchemy=False` with an allow-listed model,
and the resolved request still carries `alchemy=True`. -/
theorem resolveRequest_forces_alchemy_witness :
    resolveRequest [] none c7_args = Except.ok { c7_args with alchemy := Json.bool true } :=
  resolveRequest_forces_alchemy [] none c7_args c7_args rfl rfl rfl

/-- C3 (code bug): a status tick whose job-level flag is FAILED does raise
`LeonardoAIError("Job failed.")` inside the `try` body of
`_poll_job_completion` — but the loop's own blanket `except` swallows that
raise, so with an always-FAILED status source the loop keeps polling and
finally raises the timeout error (which is the only message that references
the job id); no job-failed error ever reaches the caller. -/
theorem poll_failed_tick_swallowed_until_timeout :
    poll_tick failedHttpResponse = Except.error (PyErr.leonardoAIError "Job failed.") ∧
    _poll_job_completion "job-1" (fun _ => failedHttpResponse) 10 300 =
      (Except.error (PyErr.leonardoAIError (jobTimeoutMsg "job-1" 300)), 300) :=
  ⟨rfl, rfl⟩

/-- C9 counterexample: a DELETE whose underlying request fails with HTTP 500
is classified as a `LeonardoAIError` by `_make_request`, yet
`delete_generation_by_id` swallows it and returns the successful-looking
`None`. -/
theorem delete_generation_swallows_failure :
    _make_request "DELETE" "generations/g1" errResp =
      Except.error (PyErr.leonardoAIError (apiFailMsg 500 "boom")) ∧
    delete_generation_by_id "g1" errResp = Except.ok () :=
  ⟨rfl, rfl⟩

/-- C9 (corrected): most operations let `_make_request` failures propagate,
but `delete_generation_by_id`, `get_generations_by_user_id` and
`list_image_ids_from_generation` catch every failing request, print a log
line, and return the successful-looking `None`, `[]` and `[]`
respectively. -/
theorem failing_requests_swallowed (generation_id user_id : String)
    (resp : HttpResponse) (h : ¬ resp.status_code = 200) :
    delete_generation_by_id generation_id resp = Except.ok () ∧
    get_generations_by_user_id user_id resp = Json.arr [] ∧
    list_image_ids_from_generation generation_id resp = [] := by
  obtain ⟨e1, he1⟩ :=
    make_request_ne200 "DELETE" (String.append "generations/" generation_id) resp h
  obtain ⟨e2, he2⟩ :=
    make_request_ne200 "GET" (String.append "generations/user/" user_id) resp h
  obtain ⟨e3, he3⟩ :=
    make_request_ne200 "GET" (String.append "generations/" generation_id) resp h
  refine ⟨?_, ?_, ?_⟩
  · unfold delete_generation_by_id
    rw [he1]
  · unfold get_generations_by_user_id
    rw [he2]
  · unfold list_image_ids_from_generation get_single_generation
    rw [he3]

/-- Witness for C9's corrected statement at a concrete failing response. -/
theorem failing_requests_swallowed_witness :
    delete_generation_by_id "g1" errResp = Except.ok () ∧
    get_generations_by_user_id "u1" errResp = Json.arr [] ∧
    list_image_ids_from_generation "g1" errResp = [] :=
  failing_requests_swallowed "g1" "u1" errResp (by decide)

theorem pollAux_pending_timeout (job_id : String) (responses : Nat → HttpResponse)
    (i t : Nat) (hi : 0 < i)
    (hp : ∀ n, poll_tick (responses n) = Except.ok none) :
    ∀ fuel n, 1 ≤ fuel → t ≤ (n + fuel - 1) * i → (n = 0 ∨ (n - 1) * i < t) →
      ∃ e, pollAux job_id responses i t fuel n =
          (Except.error (PyErr.leonardoAIError (jobTimeoutMsg job_id t)), e) ∧
        t ≤ e ∧ e < t + i := by
  intro fuel
  induction fuel with
  | zero => intro n h1 _ _; omega
  | succ fuel ih =>
    intro n hf1 hfj hstart
    have hfj2 : t ≤ (n + fuel) * i := by
      rw [show n + (fuel + 1) - 1 = n + fuel from by omega] at hfj
      exact hfj
    simp only [pollAux]
    by_cases hc : n * i < t
    · have hfuel1 : 1 ≤ fuel := by
        cases fuel with
        | zero =>
          exact absurd (Nat.lt_of_le_of_lt (by simpa using hfj2) hc) (Nat.lt_irrefl t)
        | succ f => exact Nat.succ_le_succ (Nat.zero_le f)
      rw [if_pos hc, hp n]
      apply ih (n + 1) hfuel1
      · rw [show n + 1 + fuel - 1 = n + fuel from by omega]
        exact hfj2
      · exact Or.inr (by simpa using hc)
    · rw [if_neg hc]
      refine ⟨n * i, rfl, Nat.le_of_not_lt hc, ?_⟩
      rcases hstart with rfl | h2
      · rw [Nat.zero_mul]
        omega
      · cases n with
        | zero =>
          rw [Nat.zero_mul]
          omega
        | succ m =>
          rw [Nat.succ_mul]
          have h3 : m * i < t := by simpa using h2
          generalize m * i = w at h3 ⊢
          omega

/-- C8: against a status source that always reports PENDING, with poll
interval `i ≥ 1` and timeout `t`, `_poll_job_completion` terminates by
raising the timeout error, and — the timeout check happening once per
iteration before each request — the elapsed clock at the raise lies in
`[t, t + i)`. -/
theorem poll_pending_times_out_within_interval (job_id : String)
    (responses : Nat → HttpResponse) (i t : Nat) (hi : 0 < i)
    (hp : ∀ n, responses n = pendingHttpResponse) :
    ∃ e, _poll_job_completion job_id responses i t =
        (Except.error (PyErr.leonardoAIError (jobTimeoutMsg job_id t)), e) ∧
      t ≤ e ∧ e < t + i := by
  have hp2 : ∀ n, poll_tick (responses n) = Except.ok none := fun n => by rw [hp n]; rfl
  have hfj : t ≤ (0 + (t + 1) - 1) * i := by
    rw [show 0 + (t + 1) - 1 = t from by omega]
    calc t = t * 1 := (Nat.mul_one t).symm
    _ ≤ t * i := Nat.mul_le_mul_left t hi
  exact pollAux_pending_timeout job_id responses i t hi hp2 (t + 1) 0 (by omega) hfj
    (Or.inl rfl)

/-- Witness for C8 at `i = 10`, `t = 25`: the raise happens with elapsed time
in `[25, 35)` (concretely at 30). -/
theorem poll_pending_times_out_within_interval_witness :
    ∃ e, _poll_job_completion "j" (fun _ => pendingHttpResponse) 10 25 =
        (Except.error (PyErr.leonardoAIError (jobTimeoutMsg "j" 25)), e) ∧
      25 ≤ e ∧ e < 25 + 10 :=
  poll_pending_times_out_within_interval "j" (fun _ => pendingHttpResponse) 10 25
    (by decide) (fun n => rfl)
